import Mathlib

/-!
Verification of the provider-exoscale IAMKey API types and reconciliation
contract. The data model and the accessor functions below are translated
from src/apis/exoscale/v1/iam_types.go; the reconciliation engine, whose
code is not part of the given sources, is modelled from the specification
where a claim needs it (each such definition is marked in its doc comment).
-/

/-- AccessKeyIDName is the environment variable name for the S3 access key,
from iam_types.go. -/
def AccessKeyIDName : String := "AWS_ACCESS_KEY_ID"

/-- SecretAccessKeyName is the environment variable name for the S3 secret
key, from iam_types.go. -/
def SecretAccessKeyName : String := "AWS_SECRET_ACCESS_KEY"

/-- SOSSpec is the service type for Object Storage in exoscale
(iam_types.go). -/
structure SOSSpec where
  Buckets : List String
deriving DecidableEq, Repr

/-- ServicesSpec are the accessible exoscale services of the IAMKey
(iam_types.go). -/
structure ServicesSpec where
  SOS : SOSSpec
deriving DecidableEq, Repr

/-- IAMKeyParameters are the configurable fields of IAMKey (iam_types.go). -/
structure IAMKeyParameters where
  KeyName : String
  Zone : String
  Services : ServicesSpec
deriving DecidableEq, Repr

/-- Reference models xpv1.Reference: a reference to a named object; only the
Name field is relevant here. -/
structure Reference where
  Name : String
deriving DecidableEq, Repr

/-- ResourceSpec models the embedded xpv1.ResourceSpec; of its fields only
the ProviderConfigReference pointer (a nullable reference in Go, hence an
Option here) is used by the code under verification. -/
structure ResourceSpec where
  ProviderConfigReference : Option Reference
deriving DecidableEq, Repr

/-- IAMKeySpec defines the desired state of an IAMKey (iam_types.go); the
Go struct embeds xpv1.ResourceSpec, modelled as the field `resSpec`. -/
structure IAMKeySpec where
  resSpec : ResourceSpec
  ForProvider : IAMKeyParameters
deriving DecidableEq, Repr

/-- ObjectMeta models the embedded metav1.ObjectMeta: the cluster name, the
metadata annotation map (an association list of string pairs), the presence
of a deletion timestamp, and the finalizer list. -/
structure ObjectMeta where
  Name : String
  Annots : List (String × String)
  DeletionTimestamp : Bool
  Finalizers : List String
deriving DecidableEq, Repr

/-- IAMKeyObservation contains the observed fields of an IAMKey
(iam_types.go); the Go struct embeds ServicesSpec. -/
structure IAMKeyObservation where
  KeyID : String
  RoleID : String
  KeyName : String
  Services : ServicesSpec
deriving DecidableEq, Repr

/-- ConditionSet models the Ready and Synced conditions of the embedded
xpv1.ResourceStatus as a small fixed structure: each condition is unset
(none) or True or False, with a machine-readable reason string. -/
structure ConditionSet where
  Ready : Option Bool
  ReadyReason : String
  Synced : Option Bool
deriving DecidableEq, Repr

/-- IAMKeyStatus represents the observed state of a IAMKey (iam_types.go). -/
structure IAMKeyStatus where
  conds : ConditionSet
  AtProvider : IAMKeyObservation
deriving DecidableEq, Repr

/-- IAMKey is the API for creating IAM Object Storage Keys on exoscale.com
(iam_types.go). -/
structure IAMKey where
  Metadata : ObjectMeta
  Spec : IAMKeySpec
  Status : IAMKeyStatus
deriving DecidableEq, Repr

/-- The key of the crossplane external-name metadata annotation, from
crossplane-runtime (meta.AnnotationKeyExternalName). -/
def externalNameAnnotKey : String := "crossplane.io/external-name"

/-- GetExternalName models crossplane-runtime meta.GetExternalName: it reads
the external-name metadata annotation, and a Go map read of a missing key
yields the empty string. -/
def GetExternalName (o : ObjectMeta) : String :=
  match o.Annots.lookup externalNameAnnotKey with
  | some v => v
  | none => ""

/-- GetKeyName returns the IAMKey key name in the following precedence
(iam_types.go): .spec.forProvider.keyName, then the external-name metadata
annotation, then .metadata.name. -/
def IAMKey.GetKeyName (k : IAMKey) : String :=
  if k.Spec.ForProvider.KeyName ≠ "" then
    k.Spec.ForProvider.KeyName
  else if GetExternalName k.Metadata ≠ "" then
    GetExternalName k.Metadata
  else
    k.Metadata.Name

/-- GetProviderConfigName returns the name of the ProviderConfig, and the
empty string if the reference is not given (iam_types.go). -/
def IAMKey.GetProviderConfigName (k : IAMKey) : String :=
  match k.Spec.resSpec.ProviderConfigReference with
  | some ref => ref.Name
  | none => ""

/-- mkIAMKey builds an IAMKey from the three inputs of the external-name
resolver (key-name override, external-name metadata annotation value,
cluster name) together with the remaining fields. -/
def mkIAMKey (override annotVal name zone : String) (buckets : List String) :
    IAMKey :=
  { Metadata :=
      { Name := name
        Annots := if annotVal = "" then [] else [(externalNameAnnotKey, annotVal)]
        DeletionTimestamp := false
        Finalizers := [] }
    Spec :=
      { resSpec := { ProviderConfigReference := none }
        ForProvider :=
          { KeyName := override
            Zone := zone
            Services := { SOS := { Buckets := buckets } } } }
    Status :=
      { conds := { Ready := none, ReadyReason := "", Synced := none }
        AtProvider :=
          { KeyID := "", RoleID := "", KeyName := ""
            Services := { SOS := { Buckets := [] } } } } }

example : (mkIAMKey "x" "y" "z" "ch-gva-2" ["b1"]).GetKeyName = "x" := by decide
example : (mkIAMKey "" "y" "z" "ch-gva-2" ["b1"]).GetKeyName = "y" := by decide
example : (mkIAMKey "" "" "z" "ch-gva-2" ["b1"]).GetKeyName = "z" := by decide

/-- KeyRecord models the external key record returned by the adapter: the
external key id (which is also the S3 access key id), the role id, the key
name, the bucket scope and the secret. -/
structure KeyRecord where
  id : String
  roleID : String
  name : String
  buckets : List String
  secret : String
deriving DecidableEq, Repr

/-- FetchResult classifies the outcome of the adapter fetch-by-id call. -/
inductive FetchResult where
  | found (rec : KeyRecord)
  | notFound
  | transient
deriving DecidableEq, Repr

/-- CreateResult classifies the outcome of the adapter create call. -/
inductive CreateResult where
  | ok (rec : KeyRecord)
  | permanent
  | transient
deriving DecidableEq, Repr

/-- RevokeResult classifies the outcome of the adapter revoke call. -/
inductive RevokeResult where
  | ok
  | notFound
  | transient
deriving DecidableEq, Repr

/-- Modelled from the spec: the External Client Adapter boundary of section
4.3 of the specification, whose implementation is not among the given
sources. A stub adapter is a triple of deterministic functions, one per
operation used by the reconciler (the diagnostics-only list-by-name is not
needed by any claim). -/
structure Adapter where
  fetch : String → String → FetchResult
  create : String → String → List String → CreateResult
  revoke : String → String → RevokeResult

/-- Effect records one externally visible side effect of a reconciler
invocation: an adapter call, or the publication of connection credentials
to the secret store. -/
inductive Effect where
  | fetchCall (zone id : String)
  | createCall (zone name : String) (buckets : List String)
  | revokeCall (zone id : String)
  | publishSecret (fields : List (String × String))
deriving DecidableEq, Repr

/-- ReconcileOut is the result of one reconciler invocation: the updated
stored resource, the externally visible side effects in order, and whether
a transient error was returned to the scheduler. -/
structure ReconcileOut where
  res : IAMKey
  effects : List Effect
  transientErr : Bool
deriving DecidableEq, Repr

/-- The crossplane managed-resource finalizer name. -/
def crossplaneFinalizer : String := "finalizer.managedresource.crossplane.io"

/-- removeFinalizer removes the crossplane finalizer from the metadata. -/
def removeFinalizer (k : IAMKey) : IAMKey :=
  { k with Metadata :=
      { k.Metadata with
        Finalizers := k.Metadata.Finalizers.filter
          (fun f => f != crossplaneFinalizer) } }

/-- obsFromRecord overwrites the observation wholesale from an external key
record, as section 3 of the specification requires. -/
def obsFromRecord (rec : KeyRecord) : IAMKeyObservation :=
  { KeyID := rec.id
    RoleID := rec.roleID
    KeyName := rec.name
    Services := { SOS := { Buckets := rec.buckets } } }

/-- emptyObservation is the observation of a resource that has never been
successfully created, or whose stale external id has been cleared. -/
def emptyObservation : IAMKeyObservation :=
  { KeyID := "", RoleID := "", KeyName := ""
    Services := { SOS := { Buckets := [] } } }

/-- setStatus replaces the resource status wholesale. -/
def setStatus (c : ConditionSet) (o : IAMKeyObservation) (k : IAMKey) :
    IAMKey :=
  { k with Status := { conds := c, AtProvider := o } }

/-- clearObserved clears the stale observation after the external key was
found to be gone, so the create path of self-healing runs next. -/
def clearObserved (k : IAMKey) : IAMKey :=
  { k with Status := { k.Status with AtProvider := emptyObservation } }

/-- Modelled from the spec: the Create step of section 4.1 of the
specification, whose engine code is not among the given sources. It
resolves the external name with GetKeyName, calls the adapter create, on
success persists the returned ids into the observation, marks Ready=True
and publishes the credential pair under the conventional field names, on
permanent error marks Ready=False with a terminal reason, and on transient
error leaves the state untouched and returns the error. -/
def doCreate (a : Adapter) (pre : List Effect) (k : IAMKey) : ReconcileOut :=
  match a.create k.Spec.ForProvider.Zone k.GetKeyName
      k.Spec.ForProvider.Services.SOS.Buckets with
  | CreateResult.ok rec =>
      { res := setStatus { Ready := some true, ReadyReason := "", Synced := none }
          (obsFromRecord rec) k
        effects := pre ++
          [Effect.createCall k.Spec.ForProvider.Zone k.GetKeyName
              k.Spec.ForProvider.Services.SOS.Buckets,
           Effect.publishSecret
              [(AccessKeyIDName, rec.id), (SecretAccessKeyName, rec.secret)]]
        transientErr := false }
  | CreateResult.permanent =>
      { res := setStatus
          { Ready := some false, ReadyReason := "PermanentError", Synced := some false }
          k.Status.AtProvider k
        effects := pre ++
          [Effect.createCall k.Spec.ForProvider.Zone k.GetKeyName
              k.Spec.ForProvider.Services.SOS.Buckets]
        transientErr := false }
  | CreateResult.transient =>
      { res := k
        effects := pre ++
          [Effect.createCall k.Spec.ForProvider.Zone k.GetKeyName
              k.Spec.ForProvider.Services.SOS.Buckets]
        transientErr := true }

/-- Modelled from the spec: the per-invocation algorithm of the
Reconciliation Engine of section 4.1 of the specification, whose code is
not among the given sources. Steps, in order: the delete path when a
deletion timestamp is set (revoke when an external id is observed,
treating not-found as success and keeping the finalizer on transient
error); the permanent configuration error for an empty bucket list
(section 7); the observe path when an external id is observed (found and
matching marks Ready and Synced True, a scope difference is revoke then
recreate per step 5, not-found clears the stale id and self-heals through
create, transient leaves the state untouched); and otherwise the create
path. -/
def Reconcile (a : Adapter) (k : IAMKey) : ReconcileOut :=
  if k.Metadata.DeletionTimestamp = true then
    if k.Status.AtProvider.KeyID ≠ "" then
      match a.revoke k.Spec.ForProvider.Zone k.Status.AtProvider.KeyID with
      | RevokeResult.ok =>
          { res := removeFinalizer k
            effects := [Effect.revokeCall k.Spec.ForProvider.Zone
                          k.Status.AtProvider.KeyID]
            transientErr := false }
      | RevokeResult.notFound =>
          { res := removeFinalizer k
            effects := [Effect.revokeCall k.Spec.ForProvider.Zone
                          k.Status.AtProvider.KeyID]
            transientErr := false }
      | RevokeResult.transient =>
          { res := k
            effects := [Effect.revokeCall k.Spec.ForProvider.Zone
                          k.Status.AtProvider.KeyID]
            transientErr := true }
    else
      { res := removeFinalizer k, effects := [], transientErr := false }
  else if k.Spec.ForProvider.Services.SOS.Buckets = [] then
    { res := setStatus
        { Ready := some false, ReadyReason := "ConfigurationError", Synced := some false }
        k.Status.AtProvider k
      effects := [], transientErr := false }
  else if k.Status.AtProvider.KeyID ≠ "" then
    match a.fetch k.Spec.ForProvider.Zone k.Status.AtProvider.KeyID with
    | FetchResult.found rec =>
        if rec.buckets = k.Spec.ForProvider.Services.SOS.Buckets then
          { res := setStatus
              { Ready := some true, ReadyReason := "", Synced := some true }
              (obsFromRecord rec) k
            effects := [Effect.fetchCall k.Spec.ForProvider.Zone
                          k.Status.AtProvider.KeyID]
            transientErr := false }
        else
          match a.revoke k.Spec.ForProvider.Zone k.Status.AtProvider.KeyID with
          | RevokeResult.ok =>
              doCreate a
                [Effect.fetchCall k.Spec.ForProvider.Zone k.Status.AtProvider.KeyID,
                 Effect.revokeCall k.Spec.ForProvider.Zone k.Status.AtProvider.KeyID]
                (clearObserved k)
          | RevokeResult.notFound =>
              doCreate a
                [Effect.fetchCall k.Spec.ForProvider.Zone k.Status.AtProvider.KeyID,
                 Effect.revokeCall k.Spec.ForProvider.Zone k.Status.AtProvider.KeyID]
                (clearObserved k)
          | RevokeResult.transient =>
              { res := k
                effects := [Effect.fetchCall k.Spec.ForProvider.Zone
                              k.Status.AtProvider.KeyID,
                            Effect.revokeCall k.Spec.ForProvider.Zone
                              k.Status.AtProvider.KeyID]
                transientErr := true }
    | FetchResult.notFound =>
        doCreate a
          [Effect.fetchCall k.Spec.ForProvider.Zone k.Status.AtProvider.KeyID]
          (clearObserved k)
    | FetchResult.transient =>
        { res := k
          effects := [Effect.fetchCall k.Spec.ForProvider.Zone
                        k.Status.AtProvider.KeyID]
          transientErr := true }
  else
    doCreate a [] k

/-- countCreates counts the adapter create calls among the side effects of
an invocation. -/
def countCreates : List Effect → Nat
  | [] => 0
  | Effect.createCall _ _ _ :: es => countCreates es + 1
  | _ :: es => countCreates es

/-- isPublish recognises a credential-publication side effect. -/
def isPublish (e : Effect) : Bool :=
  match e with
  | Effect.publishSecret _ => true
  | _ => false

/-- Modelled from the spec: the admission check for the immutable zone
field. The webhook marker in iam_types.go registers a validating webhook
for create and update, but its implementation is not among the given
sources; per sections 3 and 7 of the specification a spec edit changing
the zone is rejected before reaching the engine. -/
def ValidateUpdate (old new : IAMKey) : Except String Unit :=
  if new.Spec.ForProvider.Zone ≠ old.Spec.ForProvider.Zone then
    Except.error "zone cannot be changed after IAMKey is created"
  else
    Except.ok ()

/-- Modelled from the spec: the declarative schema check of section 6 for
the buckets field, required and non-empty; the generated schema is not
among the given sources. The argument is none when the field is absent
from the declaration. -/
def bucketsValid (bs : Option (List String)) : Bool :=
  match bs with
  | none => false
  | some [] => false
  | some (_ :: _) => true

/-- sampleKeyWithRef is a concrete IAMKey whose ProviderConfigReference is
set to the config named cfg. -/
def sampleKeyWithRef : IAMKey :=
  { mkIAMKey "" "" "z" "ch-gva-2" ["b1"] with
    Spec :=
      { resSpec := { ProviderConfigReference := some { Name := "cfg" } }
        ForProvider := (mkIAMKey "" "" "z" "ch-gva-2" ["b1"]).Spec.ForProvider } }

/-- Claim C1: the external-name resolver GetKeyName applies the precedence
override, then external-name metadata value, then cluster name: with inputs
(override x, annot y, name z) it returns x; with (empty, y, z) it returns
y; with (empty, empty, z) it returns z, whatever the remaining fields. -/
theorem getKeyName_precedence (zone : String) (buckets : List String) :
    (mkIAMKey "x" "y" "z" zone buckets).GetKeyName = "x" ∧
    (mkIAMKey "" "y" "z" zone buckets).GetKeyName = "y" ∧
    (mkIAMKey "" "" "z" zone buckets).GetKeyName = "z" :=
  ⟨rfl, rfl, rfl⟩

/-- Claim C2 counterexample: two IAMKeys identical except in the key-name
override, both carrying the same non-empty external-name metadata value y,
resolve to different names: with an empty override the resolver returns y,
but with override x it returns x, because the override takes precedence
over the stored external name. -/
theorem getKeyName_override_changes_name_cex :
    (mkIAMKey "" "y" "z" "ch-gva-2" ["b1"]).GetKeyName = "y" ∧
    (mkIAMKey "x" "y" "z" "ch-gva-2" ["b1"]).GetKeyName = "x" ∧
    (mkIAMKey "" "y" "z" "ch-gva-2" ["b1"]).GetKeyName ≠
      (mkIAMKey "x" "y" "z" "ch-gva-2" ["b1"]).GetKeyName := by
  decide

/-- Claim C2 (amended): for two IAMKeys whose key-name overrides are both
empty and whose external-name metadata values agree and are non-empty, the
resolver returns the same name, whatever the other fields; a non-empty
override, however, takes precedence over the stored external name and does
change the resolved name. -/
theorem getKeyName_annot_stable (k1 k2 : IAMKey)
    (h1 : k1.Spec.ForProvider.KeyName = "")
    (h2 : k2.Spec.ForProvider.KeyName = "")
    (hne : GetExternalName k1.Metadata ≠ "")
    (heq : GetExternalName k1.Metadata = GetExternalName k2.Metadata) :
    k1.GetKeyName = k2.GetKeyName := by
  rw [IAMKey.GetKeyName, IAMKey.GetKeyName, h1, h2, ← heq]
  simp [hne]

/-- Witness for the amended claim C2 at concrete inputs: two keys differing
in cluster name, zone and buckets, both with empty override and external
name y, resolve to the same name. -/
theorem getKeyName_annot_stable_witness :
    (mkIAMKey "" "y" "z1" "zoneA" ["b1"]).GetKeyName =
      (mkIAMKey "" "y" "z2" "zoneB" ["b2"]).GetKeyName :=
  getKeyName_annot_stable _ _ rfl rfl (by decide) rfl

/-- Claim C8: the external-name resolver is a pure, deterministic function
of the triple (override, external-name metadata value, cluster name): two
resources agreeing on this triple resolve to the same name, whatever all
their other fields. -/
theorem getKeyName_deterministic (k1 k2 : IAMKey)
    (hov : k1.Spec.ForProvider.KeyName = k2.Spec.ForProvider.KeyName)
    (han : GetExternalName k1.Metadata = GetExternalName k2.Metadata)
    (hnm : k1.Metadata.Name = k2.Metadata.Name) :
    k1.GetKeyName = k2.GetKeyName := by
  rw [IAMKey.GetKeyName, IAMKey.GetKeyName, hov, han, hnm]

/-- Witness for claim C8 at concrete inputs: two keys differing only in
zone, buckets and status agree on the resolver triple, hence resolve
equally. -/
theorem getKeyName_deterministic_witness :
    (mkIAMKey "ov" "y" "z" "zoneA" ["b1"]).GetKeyName =
      (mkIAMKey "ov" "y" "z" "zoneB" ["b2"]).GetKeyName :=
  getKeyName_deterministic _ _ rfl rfl rfl

/-- Claim C9: GetProviderConfigName is total and never dereferences a nil
reference: it returns the empty string when the provider-config reference
is absent, and otherwise returns exactly the referenced name. -/
theorem getProviderConfigName_total (k : IAMKey) :
    (k.Spec.resSpec.ProviderConfigReference = none →
      k.GetProviderConfigName = "") ∧
    (∀ ref, k.Spec.resSpec.ProviderConfigReference = some ref →
      k.GetProviderConfigName = ref.Name) := by
  constructor
  · intro h
    simp [IAMKey.GetProviderConfigName, h]
  · intro ref h
    simp [IAMKey.GetProviderConfigName, h]

/-- Witness for claim C9 at concrete inputs: a key without a reference
yields the empty string, and a key referencing cfg yields cfg. -/
theorem getProviderConfigName_total_witness :
    (mkIAMKey "" "" "z" "ch-gva-2" ["b1"]).GetProviderConfigName = "" ∧
    sampleKeyWithRef.GetProviderConfigName = "cfg" :=
  ⟨(getProviderConfigName_total (mkIAMKey "" "" "z" "ch-gva-2" ["b1"])).1 rfl,
   (getProviderConfigName_total sampleKeyWithRef).2 { Name := "cfg" } rfl⟩

/-- Claim C10: GetKeyName returns one of its three candidate inputs
unmodified, and returns the empty string exactly when the override, the
external-name metadata value and the cluster name are all empty. -/
theorem getKeyName_returns_candidate (k : IAMKey) :
    (k.GetKeyName = k.Spec.ForProvider.KeyName ∨
     k.GetKeyName = GetExternalName k.Metadata ∨
     k.GetKeyName = k.Metadata.Name) ∧
    (k.GetKeyName = "" ↔
      k.Spec.ForProvider.KeyName = "" ∧ GetExternalName k.Metadata = "" ∧
        k.Metadata.Name = "") := by
  by_cases h1 : k.Spec.ForProvider.KeyName = ""
  · by_cases h2 : GetExternalName k.Metadata = ""
    · simp [IAMKey.GetKeyName, h1, h2]
    · simp [IAMKey.GetKeyName, h1, h2]
  · simp [IAMKey.GetKeyName, h1]

/-- stubTransientAdapter is a stub adapter all of whose operations report a
transient failure. -/
def stubTransientAdapter : Adapter :=
  { fetch := fun _ _ => FetchResult.transient
    create := fun _ _ _ => CreateResult.transient
    revoke := fun _ _ => RevokeResult.transient }

/-- stubOkAdapter is a consistent stub adapter: create always succeeds with
stubRecord, fetch finds exactly that record under its id, revoke succeeds. -/
def stubRecord : KeyRecord :=
  { id := "ID1", roleID := "R1", name := "k1", buckets := ["b1"], secret := "S1" }

def stubOkAdapter : Adapter :=
  { fetch := fun _ i =>
      if i = stubRecord.id then FetchResult.found stubRecord else FetchResult.notFound
    create := fun _ _ _ => CreateResult.ok stubRecord
    revoke := fun _ _ => RevokeResult.ok }

/-- deletingKey is a concrete IAMKey carrying a deletion timestamp, the
crossplane finalizer and an observed external id. -/
def deletingKey : IAMKey :=
  { Metadata :=
      { Name := "k1", Annots := [], DeletionTimestamp := true
        Finalizers := [crossplaneFinalizer] }
    Spec :=
      { resSpec := { ProviderConfigReference := none }
        ForProvider :=
          { KeyName := "", Zone := "ch-gva-2"
            Services := { SOS := { Buckets := ["b1"] } } } }
    Status :=
      { conds := { Ready := some true, ReadyReason := "", Synced := some true }
        AtProvider :=
          { KeyID := "ID1", RoleID := "R1", KeyName := "k1"
            Services := { SOS := { Buckets := ["b1"] } } } } }

/-- reconcile_preserves_spec: no reconciler invocation modifies the desired
spec of the stored resource. -/
theorem reconcile_preserves_spec (a : Adapter) (k : IAMKey) :
    (Reconcile a k).res.Spec = k.Spec := by
  unfold Reconcile doCreate
  repeat' split
  all_goals rfl

/-- Claim C4: for a resource with a deletion timestamp and an observed
external id, a transient Revoke error leaves the finalizer present after
Reconcile, while Revoke success or NotFound removes it, so no external key
is orphaned by premature finalizer removal. Spec-modelled reconciler. -/
theorem reconcile_delete_safety (a : Adapter) (k : IAMKey)
    (hdel : k.Metadata.DeletionTimestamp = true)
    (hid : k.Status.AtProvider.KeyID ≠ "")
    (hfin : crossplaneFinalizer ∈ k.Metadata.Finalizers) :
    (a.revoke k.Spec.ForProvider.Zone k.Status.AtProvider.KeyID =
        RevokeResult.transient →
      crossplaneFinalizer ∈ (Reconcile a k).res.Metadata.Finalizers) ∧
    (a.revoke k.Spec.ForProvider.Zone k.Status.AtProvider.KeyID = RevokeResult.ok ∨
     a.revoke k.Spec.ForProvider.Zone k.Status.AtProvider.KeyID = RevokeResult.notFound →
      crossplaneFinalizer ∉ (Reconcile a k).res.Metadata.Finalizers) := by
  constructor
  · intro hrev
    simp [Reconcile, hdel, hid, hrev, hfin]
  · intro hrev
    rcases hrev with h | h <;>
      simp [Reconcile, hdel, hid, h, removeFinalizer, List.mem_filter]

/-- Witness for claim C4 at concrete inputs: with a transient revoke the
finalizer stays, and with a succeeding revoke it is removed. -/
theorem reconcile_delete_safety_witness :
    crossplaneFinalizer ∈
      (Reconcile stubTransientAdapter deletingKey).res.Metadata.Finalizers ∧
    crossplaneFinalizer ∉
      (Reconcile stubOkAdapter deletingKey).res.Metadata.Finalizers :=
  ⟨(reconcile_delete_safety stubTransientAdapter deletingKey rfl (by decide)
      (by decide)).1 rfl,
   (reconcile_delete_safety stubOkAdapter deletingKey rfl (by decide)
      (by decide)).2 (Or.inl rfl)⟩

/-- Claim C5: the zone is immutable after creation: no reconciler
invocation changes the zone of the stored resource, and an update changing
the zone of a resource with an observed external id is rejected by the
admission check before reaching the engine. Spec-modelled reconciler and
admission check. -/
theorem zone_immutable :
    (∀ a k, (Reconcile a k).res.Spec.ForProvider.Zone =
      k.Spec.ForProvider.Zone) ∧
    (∀ old new, old.Status.AtProvider.KeyID ≠ "" →
      new.Spec.ForProvider.Zone ≠ old.Spec.ForProvider.Zone →
      ValidateUpdate old new =
        Except.error "zone cannot be changed after IAMKey is created") := by
  constructor
  · intro a k
    rw [reconcile_preserves_spec]
  · intro old new _ hz
    simp [ValidateUpdate, hz]

/-- Witness for claim C5 at concrete inputs: reconciling a created key
keeps its zone, and an update moving the zone from ch-gva-2 to ch-dk-2 is
rejected. -/
theorem zone_immutable_witness :
    (Reconcile stubOkAdapter deletingKey).res.Spec.ForProvider.Zone =
      deletingKey.Spec.ForProvider.Zone ∧
    ValidateUpdate deletingKey (mkIAMKey "" "" "z" "ch-dk-2" ["b1"]) =
      Except.error "zone cannot be changed after IAMKey is created" :=
  ⟨zone_immutable.1 stubOkAdapter deletingKey,
   zone_immutable.2 deletingKey (mkIAMKey "" "" "z" "ch-dk-2" ["b1"])
     (by decide) (by decide)⟩

/-- Claim C6: the declarative schema requires the buckets field to be
present and non-empty, and a resource with an empty bucket list is a
permanent configuration error: the reconciler marks Ready=False with a
fixed reason and performs no adapter call. Spec-modelled schema check and
reconciler. -/
theorem buckets_required_nonempty :
    bucketsValid none = false ∧
    bucketsValid (some []) = false ∧
    (∀ b bs, bucketsValid (some (b :: bs)) = true) ∧
    (∀ a k, k.Metadata.DeletionTimestamp = false →
      k.Spec.ForProvider.Services.SOS.Buckets = [] →
      (Reconcile a k).res.Status.conds.Ready = some false ∧
      (Reconcile a k).res.Status.conds.ReadyReason = "ConfigurationError" ∧
      (Reconcile a k).effects = []) := by
  refine ⟨rfl, rfl, fun b bs => rfl, fun a k hdel hbk => ?_⟩
  simp [Reconcile, hdel, hbk, setStatus]

/-- Witness for claim C6 at a concrete input: a key declaring no buckets is
marked Ready=False with the configuration reason and triggers no adapter
call. -/
theorem buckets_required_nonempty_witness :
    (Reconcile stubOkAdapter (mkIAMKey "" "" "z" "ch-gva-2" [])).res.Status.conds.Ready =
      some false ∧
    (Reconcile stubOkAdapter (mkIAMKey "" "" "z" "ch-gva-2" [])).res.Status.conds.ReadyReason =
      "ConfigurationError" ∧
    (Reconcile stubOkAdapter (mkIAMKey "" "" "z" "ch-gva-2" [])).effects = [] :=
  buckets_required_nonempty.2.2.2 stubOkAdapter
    (mkIAMKey "" "" "z" "ch-gva-2" []) rfl rfl

/-- freshKey is a concrete freshly declared IAMKey: no deletion timestamp,
no observed external id, one declared bucket. -/
def freshKey : IAMKey := mkIAMKey "" "" "k1" "ch-gva-2" ["b1"]

/-- Claim C3: the reconciler is idempotent. For a freshly declared resource
and a consistent stub adapter (create succeeds with record rec, and fetch
finds exactly rec under its id), the first invocation issues exactly one
adapter Create call, the second issues none, and from the second
invocation on the stored resource is a fixed point, so repeated
invocations with unchanged external state produce no further side effects
and converge. Spec-modelled reconciler. -/
theorem reconcile_idempotent_create (a : Adapter) (k : IAMKey) (rec : KeyRecord)
    (hdel : k.Metadata.DeletionTimestamp = false)
    (hid : k.Status.AtProvider.KeyID = "")
    (hbk : k.Spec.ForProvider.Services.SOS.Buckets ≠ [])
    (hcr : a.create k.Spec.ForProvider.Zone k.GetKeyName
        k.Spec.ForProvider.Services.SOS.Buckets = CreateResult.ok rec)
    (hrid : rec.id ≠ "")
    (hrb : rec.buckets = k.Spec.ForProvider.Services.SOS.Buckets)
    (hft : a.fetch k.Spec.ForProvider.Zone rec.id = FetchResult.found rec) :
    countCreates (Reconcile a k).effects = 1 ∧
    countCreates (Reconcile a (Reconcile a k).res).effects = 0 ∧
    (Reconcile a (Reconcile a (Reconcile a k).res).res).res =
      (Reconcile a (Reconcile a k).res).res := by
  have h1 : Reconcile a k =
      { res := setStatus { Ready := some true, ReadyReason := "", Synced := none }
          (obsFromRecord rec) k
        effects := [Effect.createCall k.Spec.ForProvider.Zone k.GetKeyName
            k.Spec.ForProvider.Services.SOS.Buckets,
          Effect.publishSecret
            [(AccessKeyIDName, rec.id), (SecretAccessKeyName, rec.secret)]]
        transientErr := false } := by
    simp [Reconcile, doCreate, hdel, hbk, hid, hcr]
  have h2 : Reconcile a
      (setStatus { Ready := some true, ReadyReason := "", Synced := none }
        (obsFromRecord rec) k) =
      { res := setStatus { Ready := some true, ReadyReason := "", Synced := some true }
          (obsFromRecord rec) k
        effects := [Effect.fetchCall k.Spec.ForProvider.Zone rec.id]
        transientErr := false } := by
    simp [Reconcile, setStatus, obsFromRecord, hdel, hbk, hrid, hft, hrb]
  have h3 : Reconcile a
      (setStatus { Ready := some true, ReadyReason := "", Synced := some true }
        (obsFromRecord rec) k) =
      { res := setStatus { Ready := some true, ReadyReason := "", Synced := some true }
          (obsFromRecord rec) k
        effects := [Effect.fetchCall k.Spec.ForProvider.Zone rec.id]
        transientErr := false } := by
    simp [Reconcile, setStatus, obsFromRecord, hdel, hbk, hrid, hft, hrb]
  simp [h1, h2, h3, countCreates]

/-- Witness for claim C3 at concrete inputs: reconciling the fresh key with
the consistent stub adapter creates once, the repeat invocation creates
nothing, and the state is a fixed point from the second invocation on. -/
theorem reconcile_idempotent_create_witness :
    countCreates (Reconcile stubOkAdapter freshKey).effects = 1 ∧
    countCreates
      (Reconcile stubOkAdapter (Reconcile stubOkAdapter freshKey).res).effects = 0 ∧
    (Reconcile stubOkAdapter
      (Reconcile stubOkAdapter
        (Reconcile stubOkAdapter freshKey).res).res).res =
      (Reconcile stubOkAdapter (Reconcile stubOkAdapter freshKey).res).res :=
  reconcile_idempotent_create stubOkAdapter freshKey stubRecord rfl rfl
    (by decide) rfl (by decide) rfl (by decide)

/-- publishOk states the publication discipline of one invocation: every
published field list uses exactly the two conventional names, and a
publication only happens when the invocation also issued a create call. -/
def publishOk (o : ReconcileOut) : Prop :=
  ∀ fs, Effect.publishSecret fs ∈ o.effects →
    fs.map Prod.fst = [AccessKeyIDName, SecretAccessKeyName] ∧
      countCreates o.effects ≠ 0

/-- countCreates_append: create calls are counted additively across list
concatenation. -/
theorem countCreates_append (xs ys : List Effect) :
    countCreates (xs ++ ys) = countCreates xs + countCreates ys := by
  induction xs with
  | nil => simp [countCreates]
  | cons e es ih => cases e <;> (simp [countCreates, ih]; try omega)

/-- publishOk_doCreate: the create step satisfies the publication
discipline whenever the prior effects contain no publication. -/
theorem publishOk_doCreate (a : Adapter) (pre : List Effect) (k : IAMKey)
    (hp : ∀ fs, Effect.publishSecret fs ∉ pre) :
    publishOk (doCreate a pre k) := by
  unfold publishOk doCreate
  split <;> intro fs hmem <;>
    simp_all [countCreates_append, countCreates]

/-- publish_names_aux: in every invocation, any published field list uses
exactly the conventional names and comes with a create call. -/
theorem publish_names_aux (a : Adapter) (k : IAMKey) :
    ∀ fs, Effect.publishSecret fs ∈ (Reconcile a k).effects →
      fs.map Prod.fst = [AccessKeyIDName, SecretAccessKeyName] ∧
        countCreates (Reconcile a k).effects ≠ 0 := by
  suffices h : publishOk (Reconcile a k) from h
  unfold Reconcile
  repeat' split
  all_goals
    first
      | exact publishOk_doCreate _ _ _ (by simp)
      | (intro fs hmem; simp_all [countCreates])

/-- Claim C7: credentials are published exactly as a side effect of a
successful adapter Create. Every publication uses exactly the conventional
field names AWS_ACCESS_KEY_ID and AWS_SECRET_ACCESS_KEY as fixed by
iam_types.go, a publication only happens in an invocation that issued a
Create call, a successful fresh create does publish the returned pair, and
a pure observe invocation (found, matching scope) publishes nothing.
Spec-modelled reconciler. -/
theorem reconcile_publishes_on_create (a : Adapter) (k : IAMKey) :
    (∀ fs, Effect.publishSecret fs ∈ (Reconcile a k).effects →
      fs.map Prod.fst = [AccessKeyIDName, SecretAccessKeyName] ∧
      countCreates (Reconcile a k).effects ≠ 0) ∧
    (k.Metadata.DeletionTimestamp = false →
      k.Spec.ForProvider.Services.SOS.Buckets ≠ [] →
      k.Status.AtProvider.KeyID = "" →
      ∀ rec, a.create k.Spec.ForProvider.Zone k.GetKeyName
          k.Spec.ForProvider.Services.SOS.Buckets = CreateResult.ok rec →
        Effect.publishSecret
            [(AccessKeyIDName, rec.id), (SecretAccessKeyName, rec.secret)] ∈
          (Reconcile a k).effects) ∧
    (k.Metadata.DeletionTimestamp = false →
      k.Spec.ForProvider.Services.SOS.Buckets ≠ [] →
      k.Status.AtProvider.KeyID ≠ "" →
      ∀ rec, a.fetch k.Spec.ForProvider.Zone k.Status.AtProvider.KeyID =
          FetchResult.found rec →
        rec.buckets = k.Spec.ForProvider.Services.SOS.Buckets →
        (Reconcile a k).effects =
          [Effect.fetchCall k.Spec.ForProvider.Zone k.Status.AtProvider.KeyID]) := by
  refine ⟨publish_names_aux a k, ?_, ?_⟩
  · intro hdel hbk hid rec hcr
    simp [Reconcile, doCreate, hdel, hbk, hid, hcr]
  · intro hdel hbk hid rec hft hrb
    simp [Reconcile, hdel, hbk, hid, hft, hrb]

/-- Witness for claim C7 at concrete inputs: the fresh create against the
consistent stub adapter publishes the credential pair of the stub record,
and the following observe invocation only fetches. -/
theorem reconcile_publishes_on_create_witness :
    Effect.publishSecret
        [(AccessKeyIDName, stubRecord.id), (SecretAccessKeyName, stubRecord.secret)] ∈
      (Reconcile stubOkAdapter freshKey).effects ∧
    (Reconcile stubOkAdapter (Reconcile stubOkAdapter freshKey).res).effects =
      [Effect.fetchCall
        (Reconcile stubOkAdapter freshKey).res.Spec.ForProvider.Zone
        (Reconcile stubOkAdapter freshKey).res.Status.AtProvider.KeyID] :=
  ⟨(reconcile_publishes_on_create stubOkAdapter freshKey).2.1 rfl (by decide)
      rfl stubRecord rfl,
   (reconcile_publishes_on_create stubOkAdapter
      (Reconcile stubOkAdapter freshKey).res).2.2 rfl (by decide) (by decide)
      stubRecord (by decide) (by decide)⟩
